import Mathlib

/-!
Shallow embedding of the similarity-scoring and normalization pipeline of
the ArtLens repository, file src/frontend/src/js/embedding.js.

Modelling choices:
* JavaScript floating-point numbers are modelled as exact scalars.  The
  similarity scorer uses only ring arithmetic, so it is embedded over the
  rationals and stays computable; the normalizer needs a square root, so it
  is embedded over the reals.
* The accumulation loops of the source are embedded as structural
  recursion over lists; exact arithmetic makes the accumulation order
  irrelevant.
* Null/undefined arguments of cosineSim are modelled with Option.
* The TensorFlow feature extraction inside embedFromCanvas (an external
  collaborator per the spec) is modelled as the raw vector argument; the
  guard on the global tf object and the module-level embedModel variable is
  modelled with an explicit environment record.
-/

namespace ArtLens

/-- The sum-of-squares accumulation loop of embedFromCanvas
(embedding.js lines 78-79): `for (let i = 0; i < out.length; i++)
sum += out[i] * out[i]`. -/
def sumSq {R : Type} [CommRing R] : List R → R
  | [] => 0
  | x :: xs => x * x + sumSq xs

/-- The dot-product accumulation loop of cosineSim (embedding.js lines
89-90): `let dot = 0; for (let i = 0; i < vecA.length; i++)
dot += vecA[i] * vecB[i]`, run when both lists have the same length. -/
def dotLoop {R : Type} [CommRing R] : List R → List R → R
  | a :: as, b :: bs => a * b + dotLoop as bs
  | _, _ => 0

/-- cosineSim (embedding.js lines 87-92):
`if (!vecA || !vecB || vecA.length !== vecB.length) return -1;` then the
dot-product loop.  A null/undefined argument is modelled as none; an empty
array is truthy in JavaScript, so it is some []. -/
def cosineSim (vecA vecB : Option (List ℚ)) : ℚ :=
  match vecA, vecB with
  | some a, some b => if a.length = b.length then dotLoop a b else -1
  | _, _ => -1

/-- The L2 norm of a rational vector, as used by the spec to state
preconditions about unit vectors. -/
noncomputable def l2normQ (v : List ℚ) : ℝ :=
  Real.sqrt ((sumSq v : ℚ) : ℝ)

/-- The L2 norm of a real vector. -/
noncomputable def l2norm (v : List ℝ) : ℝ :=
  Real.sqrt (sumSq v)

/-- The normalization step of embedFromCanvas (embedding.js lines 78-84):
`let sum = 0; for (...) sum += out[i] * out[i];
const inv = sum > 0 ? 1 / Math.sqrt(sum) : 1.0;
if (inv !== 1.0) { for (...) out[i] *= inv; } return out;`.
The in-place multiply of the Float32Array is modelled as List.map. -/
noncomputable def embedNormalize (v : List ℝ) : List ℝ :=
  let sum := sumSq v
  let inv := if sum > 0 then 1 / Real.sqrt sum else 1
  if inv = 1 then v else v.map (fun x => x * inv)

/-- The mutable module environment read by embedFromCanvas
(embedding.js lines 4, 70-71): whether globalThis.tf is present and
whether the module variable embedModel is non-null. -/
structure EmbedEnv where
  tfLoaded : Bool
  modelLoaded : Bool

/-- embedFromCanvas (embedding.js lines 69-85): the guard
`if (!tf || !embedModel) throw new Error('Embedding model non disponibile')`
followed by feature extraction (external collaborator, modelled as the raw
vector argument) and the normalization step. -/
noncomputable def embedFromCanvas (env : EmbedEnv) (raw : List ℝ) :
    Except String (List ℝ) :=
  if !env.tfLoaded || !env.modelLoaded then
    Except.error "Embedding model non disponibile"
  else
    Except.ok (embedNormalize raw)

/-- initEmbeddingModel (embedding.js lines 12-31): throws if
globalThis.tf is absent, throws if globalThis.mobilenet is absent, and
otherwise sets the module variable embedModel, yielding an environment in
which the model is loaded. -/
def initEmbeddingModel (tfPresent mobilenetPresent : Bool) :
    Except String EmbedEnv :=
  if !tfPresent then Except.error "TensorFlow.js non caricato"
  else if !mobilenetPresent then Except.error "MobileNet non caricato"
  else Except.ok ⟨tfPresent, true⟩

/-! ### Helper lemmas -/

lemma sumSq_nonneg {R : Type} [LinearOrderedCommRing R] (v : List R) :
    0 ≤ sumSq v := by
  induction v with
  | nil => simp [sumSq]
  | cons x xs ih => simpa [sumSq] using add_nonneg (mul_self_nonneg x) ih

lemma dotLoop_self {R : Type} [CommRing R] (v : List R) :
    dotLoop v v = sumSq v := by
  induction v with
  | nil => rfl
  | cons x xs ih => simp [dotLoop, sumSq, ih]

lemma dotLoop_comm {R : Type} [CommRing R] (a b : List R) :
    dotLoop a b = dotLoop b a := by
  induction a generalizing b with
  | nil => cases b <;> rfl
  | cons x as ih =>
    cases b with
    | nil => rfl
    | cons y bs => simp [dotLoop, ih, mul_comm]

lemma dotLoop_eq_sum (a b : List ℚ) (h : a.length = b.length) :
    dotLoop a b = ∑ i ∈ Finset.range a.length, a.getD i 0 * b.getD i 0 := by
  induction a generalizing b with
  | nil => simp [dotLoop]
  | cons x as ih =>
    cases b with
    | nil => simp at h
    | cons y bs =>
      simp only [List.length_cons, Nat.succ_inj] at h
      rw [List.length_cons, Finset.sum_range_succ']
      simp only [List.getD_cons_succ, List.getD_cons_zero]
      rw [dotLoop, ih bs h, add_comm]

lemma sumSq_eq_sum (a : List ℚ) :
    sumSq a = ∑ i ∈ Finset.range a.length, a.getD i 0 ^ 2 := by
  rw [← dotLoop_self, dotLoop_eq_sum a a rfl]
  simp [sq]

lemma dotLoop_sq_le (a b : List ℚ) (h : a.length = b.length) :
    dotLoop a b ^ 2 ≤ sumSq a * sumSq b := by
  rw [dotLoop_eq_sum a b h, sumSq_eq_sum a, sumSq_eq_sum b, ← h]
  exact Finset.sum_mul_sq_le_sq_mul_sq _ _ _

lemma l2normQ_eq_one_iff (v : List ℚ) : l2normQ v = 1 ↔ sumSq v = 1 := by
  rw [l2normQ, Real.sqrt_eq_one]
  exact_mod_cast Iff.rfl

lemma sumSq_map_mul (v : List ℝ) (c : ℝ) :
    sumSq (v.map fun x => x * c) = sumSq v * (c * c) := by
  induction v with
  | nil => simp [sumSq]
  | cons x xs ih => simp [sumSq, ih]; ring

/-! ### Claim theorems -/

/-- C1 (counterexample): the claim that cosineSim fails with a
DimensionMismatch error on unequal-length inputs is false: on the
mismatched pair [1] vs [1, 2] the function returns the ordinary score -1,
the very value it also returns for the legitimate antipodal unit-vector
pair [1, 0] vs [-1, 0]; no error is raised. -/
theorem cosineSim_mismatch_returns_score :
    cosineSim (some [(1 : ℚ)]) (some [1, 2]) = -1 ∧
    l2normQ [1, 0] = 1 ∧ l2normQ [-1, 0] = 1 ∧
    cosineSim (some [(1 : ℚ), 0]) (some [-1, 0]) = -1 := by
  refine ⟨by decide, ?_, ?_, by norm_num [cosineSim, dotLoop]⟩
  · rw [l2normQ_eq_one_iff]; norm_num [sumSq]
  · rw [l2normQ_eq_one_iff]; norm_num [sumSq]

/-- C1 (amended): for every pair of input vectors of unequal length,
cosineSim returns the sentinel score -1 (embedding.js line 88) instead of
raising a DimensionMismatch error; it never truncates or pads, but the
sentinel is an ordinary returned score, not an error. -/
theorem cosineSim_mismatch_sentinel (a b : List ℚ)
    (h : a.length ≠ b.length) :
    cosineSim (some a) (some b) = -1 := by
  simp only [cosineSim]
  rw [if_neg h]

/-- Witness for the amended C1 at the concrete mismatched pair
[2, 3] vs [5]. -/
theorem cosineSim_mismatch_sentinel_witness :
    cosineSim (some [(2 : ℚ), 3]) (some [5]) = -1 :=
  cosineSim_mismatch_sentinel [2, 3] [5] (by decide)

/-- C4: for every two vectors of equal length, cosineSim returns exactly
the dot product Σ i, a[i] * b[i]; the model is a pure function, so there
are no side effects. -/
theorem cosineSim_eq_dot (a b : List ℚ) (h : a.length = b.length) :
    cosineSim (some a) (some b) =
      ∑ i ∈ Finset.range a.length, a.getD i 0 * b.getD i 0 := by
  simp only [cosineSim]
  rw [if_pos h, dotLoop_eq_sum a b h]

/-- Witness for C4 at the concrete pair [1, 2] and [3, 4]. -/
theorem cosineSim_eq_dot_witness :
    cosineSim (some [(1 : ℚ), 2]) (some [3, 4]) =
      ∑ i ∈ Finset.range ([(1 : ℚ), 2].length),
        [(1 : ℚ), 2].getD i 0 * [(3 : ℚ), 4].getD i 0 :=
  cosineSim_eq_dot [1, 2] [3, 4] rfl

/-- C6: similarity is symmetric: for all pairs of vectors of equal
length, cosineSim a b equals cosineSim b a. -/
theorem cosineSim_symm (a b : List ℚ) (h : a.length = b.length) :
    cosineSim (some a) (some b) = cosineSim (some b) (some a) := by
  simp only [cosineSim]
  rw [if_pos h, if_pos h.symm, dotLoop_comm]

/-- Witness for C6 at the concrete pair [1, 2] and [3, 4]. -/
theorem cosineSim_symm_witness :
    cosineSim (some [(1 : ℚ), 2]) (some [3, 4]) =
      cosineSim (some [(3 : ℚ), 4]) (some [1, 2]) :=
  cosineSim_symm [1, 2] [3, 4] rfl

/-- C7: for equal-length unit vectors a and b (L2 norm 1), cosineSim a b
lies in [-1, 1], and cosineSim a a equals 1 in exact arithmetic. -/
theorem cosineSim_unit_bounds (a b : List ℚ) (h : a.length = b.length)
    (ha : l2normQ a = 1) (hb : l2normQ b = 1) :
    (-1 ≤ cosineSim (some a) (some b) ∧ cosineSim (some a) (some b) ≤ 1) ∧
    cosineSim (some a) (some a) = 1 := by
  have ha' : sumSq a = 1 := (l2normQ_eq_one_iff a).mp ha
  have hb' : sumSq b = 1 := (l2normQ_eq_one_iff b).mp hb
  have hsq : dotLoop a b ^ 2 ≤ 1 := by
    have hcs := dotLoop_sq_le a b h
    rwa [ha', hb', one_mul] at hcs
  have habs : |dotLoop a b| ≤ 1 := (sq_le_one_iff_abs_le_one _).mp hsq
  have hab : cosineSim (some a) (some b) = dotLoop a b := by
    simp only [cosineSim]
    rw [if_pos h]
  have haa : cosineSim (some a) (some a) = dotLoop a a := by
    simp [cosineSim]
  refine ⟨⟨?_, ?_⟩, ?_⟩
  · rw [hab]; exact neg_le_of_abs_le habs
  · rw [hab]; exact le_of_abs_le habs
  · rw [haa, dotLoop_self, ha']

/-- Witness for C7 at the concrete unit vectors [1, 0] and [0, 1]. -/
theorem cosineSim_unit_bounds_witness :
    (-1 ≤ cosineSim (some [(1 : ℚ), 0]) (some [0, 1]) ∧
      cosineSim (some [(1 : ℚ), 0]) (some [0, 1]) ≤ 1) ∧
    cosineSim (some [(1 : ℚ), 0]) (some [(1 : ℚ), 0]) = 1 :=
  cosineSim_unit_bounds [1, 0] [0, 1] rfl
    ((l2normQ_eq_one_iff _).mpr (by norm_num [sumSq]))
    ((l2normQ_eq_one_iff _).mpr (by norm_num [sumSq]))

/-- C10: cosineSim is total in the model (its result type is a number):
a null/undefined argument or a length mismatch yields the sentinel -1
(embedding.js line 88), and that same value -1 is the legitimate score of
the antipodal unit-vector pair [1, 0] and [-1, 0]. -/
theorem cosineSim_total_sentinel :
    (∀ y : Option (List ℚ), cosineSim none y = -1) ∧
    (∀ x : Option (List ℚ), cosineSim x none = -1) ∧
    (∀ a b : List ℚ, a.length ≠ b.length →
      cosineSim (some a) (some b) = -1) ∧
    (l2normQ [1, 0] = 1 ∧ l2normQ [-1, 0] = 1 ∧
      cosineSim (some [(1 : ℚ), 0]) (some [-1, 0]) = -1) := by
  refine ⟨fun y => ?_, fun x => ?_, fun a b h => ?_, ?_, ?_,
    by norm_num [cosineSim, dotLoop]⟩
  · cases y <;> rfl
  · cases x <;> rfl
  · simp only [cosineSim]
    rw [if_neg h]
  · rw [l2normQ_eq_one_iff]; norm_num [sumSq]
  · rw [l2normQ_eq_one_iff]; norm_num [sumSq]

/-- Witness for C10, instantiating the length-mismatch component at the
concrete pair [1, 2, 3] vs [4]. -/
theorem cosineSim_total_sentinel_witness :
    cosineSim (some [(1 : ℚ), 2, 3]) (some [4]) = -1 :=
  cosineSim_total_sentinel.2.2.1 [1, 2, 3] [4] (by decide)

/-- C2: for every input vector whose L2 norm is zero, the normalization
step of embedFromCanvas returns the input unchanged: the guard
`sum > 0` (embedding.js line 80) selects inv = 1.0 and the scaling loop
is skipped, so no division by zero is performed and the model raises no
error (it is a total function). -/
theorem embedNormalize_zero_norm (v : List ℝ) (h : l2norm v = 0) :
    embedNormalize v = v := by
  have h0 : sumSq v ≤ 0 := Real.sqrt_eq_zero'.mp h
  have hns : ¬ sumSq v > 0 := not_lt.mpr h0
  simp only [embedNormalize]
  rw [if_neg hns, if_pos rfl]

/-- Witness for C2 at the all-zero vector [0, 0]. -/
theorem embedNormalize_zero_norm_witness :
    embedNormalize [(0 : ℝ), 0] = [(0 : ℝ), 0] :=
  embedNormalize_zero_norm [0, 0] (by norm_num [l2norm, sumSq])

/-- C3: for every input vector of length at least 1 with nonzero L2 norm,
the normalization step of embedFromCanvas produces a vector of the same
length whose i-th element is the i-th input element multiplied by
1 / l2norm v, and the result has unit L2 norm in exact arithmetic. -/
theorem embedNormalize_scales (v : List ℝ) (hD : 1 ≤ v.length)
    (hn : l2norm v ≠ 0) :
    (embedNormalize v).length = v.length ∧
    (∀ i, i < v.length →
      (embedNormalize v).getD i 0 = v.getD i 0 * (1 / l2norm v)) ∧
    l2norm (embedNormalize v) = 1 := by
  have hspos : 0 < sumSq v := Real.sqrt_ne_zero'.mp hn
  have hl : l2norm v = Real.sqrt (sumSq v) := rfl
  by_cases hinv : 1 / Real.sqrt (sumSq v) = 1
  case pos =>
    have hsne : Real.sqrt (sumSq v) ≠ 0 := Real.sqrt_ne_zero'.mpr hspos
    have hone : Real.sqrt (sumSq v) = 1 := by
      rw [div_eq_one_iff_eq hsne] at hinv
      exact hinv.symm
    have hev : embedNormalize v = v := by
      simp only [embedNormalize]
      rw [if_pos hspos, if_pos hinv]
    refine ⟨by rw [hev], fun i hi => ?_, ?_⟩
    · rw [hev, hl, hone, div_one, mul_one]
    · rw [hev, hl, hone]
  case neg =>
    have hev : embedNormalize v =
        v.map fun x => x * (1 / Real.sqrt (sumSq v)) := by
      simp only [embedNormalize]
      rw [if_pos hspos, if_neg hinv]
    refine ⟨by rw [hev, List.length_map], fun i hi => ?_, ?_⟩
    · have hi' : i < (v.map fun x => x * (1 / Real.sqrt (sumSq v))).length := by
        rwa [List.length_map]
      rw [hev, List.getD_eq_getElem _ _ hi', List.getElem_map,
        List.getD_eq_getElem _ _ hi, hl]
    · have hmul : (1 / Real.sqrt (sumSq v)) * (1 / Real.sqrt (sumSq v)) =
          1 / sumSq v := by
        rw [div_mul_div_comm, one_mul, Real.mul_self_sqrt hspos.le]
      rw [hev, l2norm, sumSq_map_mul, hmul, mul_one_div,
        div_self hspos.ne']
      exact Real.sqrt_one

/-- Witness for C3 at the concrete vector [3, 4] of norm 5. -/
theorem embedNormalize_scales_witness :
    (embedNormalize [(3 : ℝ), 4]).length = [(3 : ℝ), 4].length ∧
    (∀ i, i < [(3 : ℝ), 4].length →
      (embedNormalize [(3 : ℝ), 4]).getD i 0 =
        [(3 : ℝ), 4].getD i 0 * (1 / l2norm [(3 : ℝ), 4])) ∧
    l2norm (embedNormalize [(3 : ℝ), 4]) = 1 :=
  embedNormalize_scales [3, 4] (by norm_num)
    (by rw [l2norm]; norm_num [sumSq, Real.sqrt_ne_zero'])

/-- C5: normalization is idempotent: on a vector whose L2 norm is already
1, sum evaluates to 1, so inv = 1 / sqrt 1 = 1.0 and the guard
`inv !== 1.0` (embedding.js line 81) skips the scaling loop, returning
the vector unchanged (hence its norm stays exactly 1, which is within any
floating-point tolerance). -/
theorem embedNormalize_idempotent_on_unit (v : List ℝ)
    (h : l2norm v = 1) :
    embedNormalize v = v := by
  have hs : sumSq v = 1 := Real.sqrt_eq_one.mp h
  simp only [embedNormalize, hs]
  norm_num

/-- Witness for C5 at the unit vector [1]. -/
theorem embedNormalize_idempotent_on_unit_witness :
    embedNormalize [(1 : ℝ)] = [(1 : ℝ)] :=
  embedNormalize_idempotent_on_unit [1]
    (by rw [l2norm]; norm_num [sumSq])

/-- C8: the normalization step is deterministic: it is embedded as a pure
function of the input vector alone, faithful to embedding.js lines 78-84,
which read only the local array, so two runs on equal inputs produce
equal (bit-identical, in the exact model) outputs. -/
theorem embedNormalize_deterministic (v w : List ℝ) (h : v = w) :
    embedNormalize v = embedNormalize w := by
  rw [h]

/-- Witness for C8: two runs on the input [1, 2] agree. -/
theorem embedNormalize_deterministic_witness :
    embedNormalize [(1 : ℝ), 2] = embedNormalize [(1 : ℝ), 2] :=
  embedNormalize_deterministic [1, 2] [1, 2] rfl

/-- C9: embedFromCanvas returns an error (models the throw at
embedding.js line 71) rather than a vector whenever TensorFlow.js is
absent or the embedding model was never successfully loaded (embedModel
still null, as it is unless initEmbeddingModel line 19 succeeded). -/
theorem embedFromCanvas_guard (env : EmbedEnv) (raw : List ℝ)
    (h : env.tfLoaded = false ∨ env.modelLoaded = false) :
    embedFromCanvas env raw =
      Except.error "Embedding model non disponibile" := by
  rcases h with h | h <;> simp [embedFromCanvas, h]

/-- Witness for C9 with TensorFlow.js absent and no model loaded. -/
theorem embedFromCanvas_guard_witness :
    embedFromCanvas ⟨false, false⟩ [(1 : ℝ)] =
      Except.error "Embedding model non disponibile" :=
  embedFromCanvas_guard ⟨false, false⟩ [1] (Or.inl rfl)

end ArtLens
